import Mathlib

/-!
Shallow embedding of `scripts/hl_bridge.py`, a one-shot CLI bridge that
translates trading commands into calls against a remote exchange gateway and
prints exactly one JSON object per invocation.

Modelling conventions:
* Python floats are modelled as exact rationals (`ℚ`); Python's `round`
  (banker's rounding, half-to-even) is `pyRound`/`pyRoundTo` below.
* The external collaborators (`Info`, `Exchange` from the SDK) are an explicit
  environment `Env` of fallible calls (`Except String α` models a call that can
  raise; the `String` is `str(e)`).
* Each command returns a `Run`: the JSON objects printed to stdout, an optional
  uncaught exception (which terminates the process abnormally), and the trace
  of gateway calls it made.
* `str.lower()` / `str.upper()` are modelled for the ASCII tokens this CLI
  uses (`pyLower` / `pyUpper`).
-/

/-- Banker's rounding to an integer: Python's builtin `round(x)`. -/
def pyRound (x : ℚ) : ℤ :=
  let f := ⌊x⌋
  let r := x - (f : ℚ)
  if r < 1/2 then f
  else if 1/2 < r then f + 1
  else if f % 2 = 0 then f else f + 1

/-- Python's `round(x, n)` for a non-negative digit count, in exact decimal
arithmetic. -/
def pyRoundTo (x : ℚ) (n : ℕ) : ℚ := (pyRound (x * 10 ^ n) : ℚ) / 10 ^ n

/-- Python's `int(x)` on a float: truncation toward zero. -/
def pyTrunc (x : ℚ) : ℤ := if x < 0 then ⌈x⌉ else ⌊x⌋

/-- ASCII lower-casing of one character (the tokens this CLI compares are
ASCII, so this matches Python `str.lower`). -/
def asciiLower (c : Char) : Char :=
  if 'A' ≤ c ∧ c ≤ 'Z' then Char.ofNat (c.toNat + 32) else c

/-- ASCII upper-casing of one character. -/
def asciiUpper (c : Char) : Char :=
  if 'a' ≤ c ∧ c ≤ 'z' then Char.ofNat (c.toNat - 32) else c

/-- Model of Python `s.lower()` for ASCII strings. -/
def pyLower (s : String) : String := ⟨s.data.map asciiLower⟩

/-- Model of Python `s.upper()` for ASCII strings. -/
def pyUpper (s : String) : String := ⟨s.data.map asciiUpper⟩

/-- Whether the first character list is an initial segment of the second. -/
def charsStart : List Char → List Char → Bool
  | [], _ => true
  | _ :: _, [] => false
  | p :: ps, c :: cs => (p == c) && charsStart ps cs

/-- Model of Python `s.startswith(pre)`. -/
def pyStarts (pre s : String) : Bool := charsStart pre.data s.data

/-- Digits of a decimal numeral, most significant first, folded to a `ℕ`;
`none` on any non-digit. -/
def digitsToNatAux : List Char → ℕ → Option ℕ
  | [], acc => some acc
  | c :: cs, acc =>
    if c.isDigit then digitsToNatAux cs (acc * 10 + (c.toNat - 48)) else none

/-- Parse a non-empty run of decimal digits. -/
def digitsToNat (cs : List Char) : Option ℕ :=
  if cs = [] then none else digitsToNatAux cs 0

/-- Split a character list at the first dot, if any. -/
def breakDot : List Char → List Char × Option (List Char)
  | [] => ([], none)
  | c :: cs =>
    if c = '.' then ([], some cs)
    else
      let (pre, post) := breakDot cs
      (c :: pre, post)

/-- Character-level stage of decimal parsing: sign, integer digits value,
fraction digits value, fraction length. `none` models a malformed literal. -/
def parseDecParts (s : String) : Option (Bool × ℕ × ℕ × ℕ) :=
  let (neg, cs) :=
    match s.data with
    | '-' :: rest => (true, rest)
    | cs => (false, cs)
  let (ip, fp) := breakDot cs
  match fp with
  | none => (digitsToNat ip).map (fun n => (neg, n, 0, 0))
  | some fpart =>
    match ip, fpart with
    | [], [] => none
    | [], _ => (digitsToNat fpart).map (fun f => (neg, 0, f, fpart.length))
    | _, [] => (digitsToNat ip).map (fun n => (neg, n, 0, 0))
    | _, _ =>
      match digitsToNat ip, digitsToNat fpart with
      | some n, some f => some (neg, n, f, fpart.length)
      | _, _ => none

/-- Model of Python `float(s)` for the plain decimal literals this CLI passes
(optional minus sign, digits, optional fractional part; `"1."` and `".5"`
parse as in Python). `none` models `float()` raising `ValueError`. -/
def parseDec (s : String) : Option ℚ :=
  (parseDecParts s).map
    (fun q => (if q.1 then -1 else 1) * ((q.2.1 : ℚ) + (q.2.2.1 : ℚ) / 10 ^ q.2.2.2))

/-- Model of Python `int(s)` for plain integer literals; `none` models
`ValueError`. -/
def pyParseInt (s : String) : Option ℤ :=
  match s.data with
  | '-' :: rest => (digitsToNat rest).map (fun n => -(n : ℤ))
  | cs => (digitsToNat cs).map (fun n => (n : ℤ))

/-- JSON-like values, the things `json.dumps` renders and `print` emits. -/
inductive J where
  | jnull : J
  | jbool : Bool → J
  | jnum : ℚ → J
  | jstr : String → J
  | jarr : List J → J
  | jobj : List (String × J) → J

/-- Time-in-force of a plain limit order: `{"tif": "Ioc"}` or `{"tif": "Gtc"}`. -/
inductive Tif where
  | Ioc : Tif
  | Gtc : Tif
deriving DecidableEq

/-- The `order_type` dict passed to `exchange.order`: either
`{"limit": {"tif": ...}}` or
`{"trigger": {"triggerPx": px, "isMarket": b, "tpsl": s}}`. -/
inductive OrderType where
  | limit : Tif → OrderType
  | trig : ℚ → Bool → String → OrderType
deriving DecidableEq

/-- One `exchange.order(coin, is_buy, sz, limit_px, order_type, reduce_only)`
request as submitted to the gateway. -/
structure OrderReq where
  coin : String
  isBuy : Bool
  sz : ℚ
  limitPx : ℚ
  orderType : OrderType
  reduceOnly : Bool
deriving DecidableEq

/-- One entry of `result["response"]["data"]["statuses"]`, decoded at the
adapter boundary: an `error` message, a `filled` dict (oid, avgPx, totalSz,
plus the raw dict), a `resting` dict (oid), or anything else (raw dict). -/
inductive StatusEntry where
  | err : String → StatusEntry
  | filled : J → J → J → J → StatusEntry
  | resting : J → StatusEntry
  | other : J → StatusEntry

/-- A gateway reply to `exchange.order`: its `status` field, the decoded
`statuses` array (`[]` when the path is absent), the raw reply (embedded in
the `{"result": ...}` fallback), and its `str(result)` rendering. -/
structure OrderResult where
  status : String
  statuses : List StatusEntry
  raw : J
  asStr : String

/-- A gateway reply to `exchange.cancel`: its `status` field and its
`str(result)` rendering. -/
structure CancelResult where
  status : String
  asStr : String

/-- One position from `state["assetPositions"]`, with the numeric strings
already parsed the way the script parses them (`float(...)`); `leverage` is
passed through to the output verbatim. -/
structure Position where
  coin : String
  szi : ℚ
  entryPx : ℚ
  unrealizedPnl : ℚ
  leverage : J

/-- The slice of `info.user_state(...)` the script reads. The account fields
are the raw strings the venue returns (printed verbatim). -/
structure UserState where
  accountValue : String
  withdrawable : String
  assetPositions : List Position

/-- One open order from `info.open_orders(...)`, as the script reads it. -/
structure OpenOrder where
  oid : Option ℤ
  coin : String
  side : String
  sz : ℚ
  limitPx : ℚ
  orderType : String
  reduceOnly : Bool
  triggerPx : J
  tpsl : J

/-- One price level of the L2 book. -/
structure L2Level where
  px : ℚ
  sz : ℚ
  n : ℤ

/-- An L2 snapshot: `levels[0]` are bids, `levels[1]` are asks. -/
structure L2Book where
  bids : List L2Level
  asks : List L2Level

/-- A gateway interaction, recorded in the order the script performs them. -/
inductive GCall where
  | userStateQ : GCall
  | allMidsQ : GCall
  | orderQ : OrderReq → GCall
  | cancelQ : String → ℤ → GCall
  | openOrdersQ : GCall
  | l2Q : String → GCall

/-- The external collaborators of one invocation. `credError` is the error
returned by `get_exchange()` when signing material is missing (`none` means an
exchange handle is available); every other field is one gateway entry point,
with `Except.error e` modelling a raised exception whose `str` is `e`.
A deterministic environment returns the same answer on repeated calls. -/
structure Env where
  credError : Option String
  userState : Except String UserState
  mids : Except String (List (String × ℚ))
  orderCall : OrderReq → Except String OrderResult
  cancelCall : String → ℤ → Except String CancelResult
  openOrdersCall : Except String (List OpenOrder)
  l2Call : String → Except String L2Book

/-- The observable effect of one command: the JSON objects printed to stdout,
the uncaught exception if the process died abnormally, and the gateway calls
made, in order. -/
structure Run where
  out : List J
  crash : Option String
  calls : List GCall

/-- Python `all_mids.get(coin, 0)` followed by `float(...)`. -/
def lookupMid (mids : List (String × ℚ)) (coin : String) : ℚ :=
  (mids.lookup coin).getD 0

/-- The envelope `{"success": false, "error": e}`. -/
def successFalse (e : String) : J :=
  J.jobj [("success", J.jbool false), ("error", J.jstr e)]

/-- The static size-precision table of `cmd_order` (hl_bridge.py lines
125-132). -/
def SZ_DECIMALS_order : List (String × ℕ) :=
  [("BTC", 4), ("ETH", 3), ("SOL", 2), ("XRP", 0), ("BNB", 2), ("DOGE", 0),
   ("ADA", 0), ("AVAX", 2), ("DOT", 1), ("LINK", 1), ("LTC", 2), ("BCH", 2),
   ("MATIC", 0), ("ARB", 0), ("OP", 0), ("SUI", 0), ("APT", 1), ("ATOM", 1),
   ("UNI", 1), ("NEAR", 0), ("FIL", 1), ("AAVE", 2), ("INJ", 1), ("TIA", 1),
   ("SEI", 0), ("FTM", 0), ("MKR", 3), ("TON", 1), ("TRX", 0), ("ETC", 1),
   ("HYPE", 1), ("MEGA", 0), ("PEPE", 0), ("WIF", 0), ("BONK", 0), ("TAO", 2)]

/-- The static size-precision table of `cmd_trigger` (hl_bridge.py lines
274-281; the source repeats the literal). -/
def SZ_DECIMALS_trigger : List (String × ℕ) :=
  [("BTC", 4), ("ETH", 3), ("SOL", 2), ("XRP", 0), ("BNB", 2), ("DOGE", 0),
   ("ADA", 0), ("AVAX", 2), ("DOT", 1), ("LINK", 1), ("LTC", 2), ("BCH", 2),
   ("MATIC", 0), ("ARB", 0), ("OP", 0), ("SUI", 0), ("APT", 1), ("ATOM", 1),
   ("UNI", 1), ("NEAR", 0), ("FIL", 1), ("AAVE", 2), ("INJ", 1), ("TIA", 1),
   ("SEI", 0), ("FTM", 0), ("MKR", 3), ("TON", 1), ("TRX", 0), ("ETC", 1),
   ("HYPE", 1), ("MEGA", 0), ("PEPE", 0), ("WIF", 0), ("BONK", 0), ("TAO", 2)]

/-- Python `SZ_DECIMALS.get(coin, 2)` on the order path. -/
def szDecimalsOrder (coin : String) : ℕ := (SZ_DECIMALS_order.lookup coin).getD 2

/-- Python `SZ_DECIMALS.get(coin, 2)` on the trigger path. -/
def szDecimalsTrigger (coin : String) : ℕ := (SZ_DECIMALS_trigger.lookup coin).getD 2

/-- Size normalization common to both paths: `size = round(size, d)` followed
by `size = int(size)` when `d == 0` (hl_bridge.py lines 134-136 and 283-285). -/
def roundSize (x : ℚ) (d : ℕ) : ℚ :=
  let r := pyRoundTo x d
  if d = 0 then (pyTrunc r : ℚ) else r

/-- Magnitude-tiered price rounding of explicit limit prices in `cmd_order`
(hl_bridge.py lines 158-169). -/
def roundPriceOrder (p : ℚ) : ℚ :=
  if p < 1 then pyRoundTo p 5
  else if p < 10 then pyRoundTo p 4
  else if p < 100 then pyRoundTo p 3
  else if p < 1000 then pyRoundTo p 2
  else pyRoundTo p 1

/-- Magnitude-tiered rounding of the trigger price in `cmd_trigger`
(hl_bridge.py lines 288-297; the source repeats the tier ladder). -/
def roundPriceTrigger (p : ℚ) : ℚ :=
  if p < 1 then pyRoundTo p 5
  else if p < 10 then pyRoundTo p 4
  else if p < 100 then pyRoundTo p 3
  else if p < 1000 then pyRoundTo p 2
  else pyRoundTo p 1

/-- Trigger direction resolver of `cmd_trigger` (hl_bridge.py lines 303-312):
for `sl` trigger above iff buying to close, for anything else (`tp`) trigger
above iff selling to close. The source computes this value inline and the
submitted payload carries `tpsl` plus the order side, from which the venue
derives the same direction; the value itself is not a field of the payload. -/
def isTriggerAbove (is_buy : Bool) (trigType : String) : Bool :=
  if pyLower trigType = "sl" then is_buy else !is_buy

/-- Synthetic market price: `round(mid * 1.001)` when buying,
`round(mid * 0.999)` when selling (hl_bridge.py lines 143-146 and 240-243). -/
def marketPx (is_buy : Bool) (mid : ℚ) : ℚ :=
  if is_buy then (pyRound (mid * (1001/1000)) : ℚ)
  else (pyRound (mid * (999/1000)) : ℚ)

/-- Far-from-market resting price of the `limit_open` helper:
`round(mid * 0.95)` when buying, `round(mid * 1.05)` when selling
(hl_bridge.py lines 152-155). -/
def limitOpenPx (is_buy : Bool) (mid : ℚ) : ℚ :=
  if is_buy then (pyRound (mid * (95/100)) : ℚ)
  else (pyRound (mid * (105/100)) : ℚ)

/-- Response normalizer of `cmd_order` (hl_bridge.py lines 175-200): maps a
gateway reply to the printed envelope. -/
def orderEnvelope (r : OrderResult) : J :=
  if r.status = "ok" then
    match r.statuses with
    | [] => J.jobj [("success", J.jbool true), ("result", r.raw)]
    | st :: _ =>
      match st with
      | StatusEntry.err e => successFalse e
      | StatusEntry.filled oid avgPx totalSz _ =>
        J.jobj [("success", J.jbool true), ("filled", J.jbool true),
                ("oid", oid), ("avgPx", avgPx), ("totalSz", totalSz)]
      | StatusEntry.resting oid =>
        J.jobj [("success", J.jbool true), ("filled", J.jbool false), ("oid", oid)]
      | StatusEntry.other rawSt =>
        J.jobj [("success", J.jbool true), ("status", rawSt)]
  else successFalse r.asStr

/-- Response normalizer of `cmd_trigger` (hl_bridge.py lines 326-344): unlike
the order path it has no `filled` branch — only `error`, `resting` (with
`triggerType`/`triggerPrice` fields), opaque `status`, and the fallbacks. -/
def triggerEnvelope (r : OrderResult) (trigType : String) (trigPx : ℚ) : J :=
  if r.status = "ok" then
    match r.statuses with
    | [] => J.jobj [("success", J.jbool true), ("result", r.raw)]
    | st :: _ =>
      match st with
      | StatusEntry.err e => successFalse e
      | StatusEntry.resting oid =>
        J.jobj [("success", J.jbool true), ("oid", oid),
                ("triggerType", J.jstr trigType), ("triggerPrice", J.jnum trigPx)]
      | StatusEntry.filled _ _ _ rawSt =>
        J.jobj [("success", J.jbool true), ("status", rawSt)]
      | StatusEntry.other rawSt =>
        J.jobj [("success", J.jbool true), ("status", rawSt)]
  else successFalse r.asStr

/-- The `try`-protected tail of `cmd_order`: submit the request and print the
normalized envelope; an exception from the gateway is caught and reported
(hl_bridge.py lines 172-202). -/
def placeAndReport (env : Env) (req : OrderReq) (pre : List GCall) : Run :=
  match env.orderCall req with
  | Except.error e => ⟨[successFalse e], none, pre ++ [GCall.orderQ req]⟩
  | Except.ok r => ⟨[orderEnvelope r], none, pre ++ [GCall.orderQ req]⟩

/-- Embedding of `cmd_balance` (hl_bridge.py lines 82-92). The `user_state`
fetch is not inside any `try`: a raised exception crashes the process. -/
def cmd_balance (env : Env) : Run :=
  match env.userState with
  | Except.error e => ⟨[], some e, [GCall.userStateQ]⟩
  | Except.ok st =>
    ⟨[J.jobj [("success", J.jbool true),
              ("accountValue", J.jstr st.accountValue),
              ("withdrawable", J.jstr st.withdrawable)]],
     none, [GCall.userStateQ]⟩

/-- One entry of the positions list printed by `cmd_positions`. -/
def positionJ (p : Position) : J :=
  J.jobj [("symbol", J.jstr p.coin), ("size", J.jnum p.szi),
          ("entryPx", J.jnum p.entryPx), ("unrealizedPnl", J.jnum p.unrealizedPnl),
          ("leverage", p.leverage)]

/-- Embedding of `cmd_positions` (hl_bridge.py lines 94-112). Like
`cmd_balance`, it has no exception handling. -/
def cmd_positions (env : Env) : Run :=
  match env.userState with
  | Except.error e => ⟨[], some e, [GCall.userStateQ]⟩
  | Except.ok st =>
    ⟨[J.jobj [("success", J.jbool true),
              ("positions", J.jarr ((st.assetPositions.filter
                 (fun p => decide (p.szi ≠ 0))).map positionJ))]],
     none, [GCall.userStateQ]⟩

/-- Embedding of `cmd_order` (hl_bridge.py lines 114-202). The `all_mids`
fetch of the market and `limit_open` branches happens before the `try`, so an
exception there crashes; only the submission itself is protected. -/
def cmd_order (env : Env) (coin side sizeTok : String) (priceTok : Option String) : Run :=
  match env.credError with
  | some e => ⟨[successFalse e], none, []⟩
  | none =>
    let is_buy := pyLower side = "buy"
    match parseDec sizeTok with
    | none => ⟨[], some "ValueError: could not convert string to float", []⟩
    | some size0 =>
      let size := roundSize size0 (szDecimalsOrder coin)
      let marketBranch : Run :=
        match env.mids with
        | Except.error e => ⟨[], some e, [GCall.allMidsQ]⟩
        | Except.ok mids =>
          placeAndReport env
            ⟨coin, is_buy, size, marketPx is_buy (lookupMid mids coin),
             OrderType.limit Tif.Ioc, false⟩ [GCall.allMidsQ]
      match priceTok with
      | none => marketBranch
      | some ptok =>
        if ptok = "market" then marketBranch
        else if ptok = "limit_open" then
          match env.mids with
          | Except.error e => ⟨[], some e, [GCall.allMidsQ]⟩
          | Except.ok mids =>
            placeAndReport env
              ⟨coin, is_buy, size, limitOpenPx is_buy (lookupMid mids coin),
               OrderType.limit Tif.Gtc, false⟩ [GCall.allMidsQ]
        else
          match parseDec ptok with
          | none => ⟨[], some "ValueError: could not convert string to float", []⟩
          | some pf =>
            placeAndReport env
              ⟨coin, is_buy, size, roundPriceOrder pf, OrderType.limit Tif.Gtc, false⟩ []

/-- Embedding of `cmd_cancel` (hl_bridge.py lines 204-217); `int(oid)` and the
cancel call are both inside the `try`, so every outcome is printed. -/
def cmd_cancel (env : Env) (coin oidTok : String) : Run :=
  match env.credError with
  | some e => ⟨[successFalse e], none, []⟩
  | none =>
    match pyParseInt oidTok with
    | none => ⟨[successFalse "invalid literal for int() with base 10"], none, []⟩
    | some oid =>
      match env.cancelCall coin oid with
      | Except.error e => ⟨[successFalse e], none, [GCall.cancelQ coin oid]⟩
      | Except.ok r =>
        if r.status = "ok" then
          ⟨[J.jobj [("success", J.jbool true)]], none, [GCall.cancelQ coin oid]⟩
        else ⟨[successFalse r.asStr], none, [GCall.cancelQ coin oid]⟩

/-- The close-all request for one position (hl_bridge.py lines 234-246): buy
iff the signed size is negative, size `abs(szi)`, synthetic market price
against the mid, immediate-or-cancel. -/
def closeReq (mids : List (String × ℚ)) (p : Position) : OrderReq :=
  ⟨p.coin, decide (p.szi < 0), |p.szi|,
   marketPx (decide (p.szi < 0)) (lookupMid mids p.coin),
   OrderType.limit Tif.Ioc, false⟩

/-- The per-position entry appended to `closed` (hl_bridge.py lines 245-249):
the submission is wrapped in its own `try`, so a failure is recorded as an
`error` entry instead of aborting the loop. -/
def closedEntry (env : Env) (mids : List (String × ℚ)) (p : Position) : J :=
  match env.orderCall (closeReq mids p) with
  | Except.ok r =>
    J.jobj [("coin", J.jstr p.coin), ("size", J.jnum |p.szi|), ("result", J.jstr r.status)]
  | Except.error e =>
    J.jobj [("coin", J.jstr p.coin), ("size", J.jnum |p.szi|), ("error", J.jstr e)]

/-- The position loop of `cmd_close_all` (hl_bridge.py lines 230-249). The
per-position `all_mids` fetch is outside the `try`, so a fault there crashes
the whole loop; only the submission is isolated per position. -/
def closeAllLoop (env : Env) : List Position → List J × Option String × List GCall
  | [] => ([], none, [])
  | p :: rest =>
    if p.szi = 0 then closeAllLoop env rest
    else
      match env.mids with
      | Except.error e => ([], some e, [GCall.allMidsQ])
      | Except.ok mids =>
        let entry := closedEntry env mids p
        let (js, cr, tr) := closeAllLoop env rest
        (entry :: js, cr, GCall.allMidsQ :: GCall.orderQ (closeReq mids p) :: tr)

/-- Embedding of `cmd_close_all` (hl_bridge.py lines 219-251). -/
def cmd_close_all (env : Env) : Run :=
  match env.credError with
  | some e => ⟨[successFalse e], none, []⟩
  | none =>
    match env.userState with
    | Except.error e => ⟨[], some e, [GCall.userStateQ]⟩
    | Except.ok st =>
      let (closed, cr, tr) := closeAllLoop env st.assetPositions
      match cr with
      | some e => ⟨[], some e, GCall.userStateQ :: tr⟩
      | none =>
        ⟨[J.jobj [("success", J.jbool true), ("closed", J.jarr closed)]],
         none, GCall.userStateQ :: tr⟩

/-- The `try`-protected tail of `cmd_trigger` (hl_bridge.py lines 299-346):
submit the trigger request and print the normalized envelope; a gateway
exception is caught and reported. -/
def triggerReport (env : Env) (req : OrderReq) (trigType : String) (trigPx : ℚ) : Run :=
  match env.orderCall req with
  | Except.error e => ⟨[successFalse e], none, [GCall.orderQ req]⟩
  | Except.ok r => ⟨[triggerEnvelope r trigType trigPx], none, [GCall.orderQ req]⟩

/-- Embedding of `cmd_trigger` (hl_bridge.py lines 253-346). -/
def cmd_trigger (env : Env) (coin side sizeTok trigTypeTok trigPxTok : String) : Run :=
  match env.credError with
  | some e => ⟨[successFalse e], none, []⟩
  | none =>
    let is_buy := pyLower side = "buy"
    match parseDec sizeTok, parseDec trigPxTok with
    | some size0, some trig0 =>
      let size := roundSize size0 (szDecimalsTrigger coin)
      let trigger_price := roundPriceTrigger trig0
      let _above := isTriggerAbove is_buy trigTypeTok
      let tpsl := if pyLower trigTypeTok = "sl" then "sl" else "tp"
      triggerReport env
        ⟨coin, is_buy, size, trigger_price,
         OrderType.trig trigger_price true tpsl, true⟩
        trigTypeTok trigger_price
    | _, _ => ⟨[], some "ValueError: could not convert string to float", []⟩

/-- One entry of the open-orders listing (hl_bridge.py lines 357-368). -/
def openOrderJ (o : OpenOrder) : J :=
  J.jobj [("oid", match o.oid with | none => J.jnull | some z => J.jnum (z : ℚ)),
          ("coin", J.jstr o.coin),
          ("side", J.jstr (if pyLower o.side = "b" then "buy" else "sell")),
          ("size", J.jnum o.sz), ("price", J.jnum o.limitPx),
          ("orderType", J.jstr o.orderType), ("reduceOnly", J.jbool o.reduceOnly),
          ("triggerPx", o.triggerPx), ("tpsl", o.tpsl)]

/-- Embedding of `cmd_open_orders` (hl_bridge.py lines 348-373); the whole
body is inside the `try`, so it always prints exactly one envelope. -/
def cmd_open_orders (env : Env) : Run :=
  match env.openOrdersCall with
  | Except.error e => ⟨[successFalse e], none, [GCall.openOrdersQ]⟩
  | Except.ok orders =>
    ⟨[J.jobj [("success", J.jbool true),
              ("orders", J.jarr (orders.map openOrderJ)),
              ("count", J.jnum (orders.length : ℚ))]],
     none, [GCall.openOrdersQ]⟩

/-- The cancellation loop of `cmd_cancel_all_orders` (hl_bridge.py lines
391-407): coin filter, Python truthiness of `oid` (both `None` and `0` are
skipped), and per-order exception isolation. -/
def cancelAllLoop (env : Env) (coinF : Option String) :
    List OpenOrder → List J × List J × List GCall
  | [] => ([], [], [])
  | o :: rest =>
    let skip : Bool :=
      match coinF with
      | some c => decide (pyUpper o.coin ≠ pyUpper c)
      | none => false
    if skip then cancelAllLoop env coinF rest
    else
      match o.oid with
      | none => cancelAllLoop env coinF rest
      | some oid =>
        if oid = 0 then cancelAllLoop env coinF rest
        else
          let (cs, es, tr) := cancelAllLoop env coinF rest
          match env.cancelCall o.coin oid with
          | Except.ok r =>
            if r.status = "ok" then
              (J.jobj [("coin", J.jstr o.coin), ("oid", J.jnum (oid : ℚ))] :: cs,
               es, GCall.cancelQ o.coin oid :: tr)
            else
              (cs, J.jobj [("coin", J.jstr o.coin), ("oid", J.jnum (oid : ℚ)),
                           ("error", J.jstr r.asStr)] :: es,
               GCall.cancelQ o.coin oid :: tr)
          | Except.error e =>
            (cs, J.jobj [("coin", J.jstr o.coin), ("oid", J.jnum (oid : ℚ)),
                         ("error", J.jstr e)] :: es,
             GCall.cancelQ o.coin oid :: tr)

/-- Embedding of `cmd_cancel_all_orders` (hl_bridge.py lines 375-418). -/
def cmd_cancel_all_orders (env : Env) (coinF : Option String) : Run :=
  match env.credError with
  | some e => ⟨[successFalse e], none, []⟩
  | none =>
    match env.openOrdersCall with
    | Except.error e => ⟨[successFalse e], none, [GCall.openOrdersQ]⟩
    | Except.ok orders =>
      let (cancelled, errs, tr) := cancelAllLoop env coinF orders
      ⟨[J.jobj [("success", J.jbool true),
                ("cancelled", J.jarr cancelled),
                ("cancelledCount", J.jnum (cancelled.length : ℚ)),
                ("errors", J.jarr errs),
                ("errorCount", J.jnum (errs.length : ℚ))]],
       none, GCall.openOrdersQ :: tr⟩

/-- One rendered book level (hl_bridge.py lines 430-443). -/
def levelJ (l : L2Level) : J :=
  J.jobj [("price", J.jnum l.px), ("size", J.jnum l.sz), ("numOrders", J.jnum (l.n : ℚ))]

/-- Python `max(levels, key=lambda x: x["size"])`: the first level of maximal
size, `None` on an empty list. -/
def pyMaxBySize : List L2Level → Option L2Level
  | [] => none
  | l :: ls => some (ls.foldl (fun best x => if x.sz > best.sz then x else best) l)

/-- The bid side truncated to the requested depth (`levels[0][:depth]`). -/
def obBids (book : L2Book) (depth : ℕ) : List L2Level := book.bids.take depth

/-- The ask side truncated to the requested depth (`levels[1][:depth]`). -/
def obAsks (book : L2Book) (depth : ℕ) : List L2Level := book.asks.take depth

/-- Best bid: price of the first bid level, `0` when there are no bids
(hl_bridge.py line 450). -/
def obBestBid (book : L2Book) (depth : ℕ) : ℚ :=
  match obBids book depth with
  | [] => 0
  | b :: _ => b.px

/-- Best ask: price of the first ask level, `0` when there are no asks
(hl_bridge.py line 451). -/
def obBestAsk (book : L2Book) (depth : ℕ) : ℚ :=
  match obAsks book depth with
  | [] => 0
  | a :: _ => a.px

/-- Total displayed bid size (hl_bridge.py line 455). -/
def obTotalBid (book : L2Book) (depth : ℕ) : ℚ :=
  ((obBids book depth).map L2Level.sz).sum

/-- Total displayed ask size (hl_bridge.py line 456). -/
def obTotalAsk (book : L2Book) (depth : ℕ) : ℚ :=
  ((obAsks book depth).map L2Level.sz).sum

/-- Relative spread in percent, `0` when the best bid is not positive
(hl_bridge.py line 452). -/
def obSpread (book : L2Book) (depth : ℕ) : ℚ :=
  if obBestBid book depth > 0 then
    (obBestAsk book depth - obBestBid book depth) / obBestBid book depth * 100
  else 0

/-- Book imbalance in percent, `0` when the book is empty
(hl_bridge.py line 457). -/
def obImbalance (book : L2Book) (depth : ℕ) : ℚ :=
  if obTotalBid book depth + obTotalAsk book depth > 0 then
    (obTotalBid book depth - obTotalAsk book depth)
      / (obTotalBid book depth + obTotalAsk book depth) * 100
  else 0

/-- Rendering of an optional wall level. -/
def wallJ : Option L2Level → J
  | none => J.jnull
  | some l => levelJ l

/-- Embedding of `cmd_orderbook` (hl_bridge.py lines 420-476); the whole body
is inside the `try`. Negative CLI depths (a Python slicing corner) are outside
this model; `depth` is the non-negative prefix length. -/
def cmd_orderbook (env : Env) (coin : String) (depth : ℕ) : Run :=
  match env.l2Call coin with
  | Except.error e => ⟨[successFalse e], none, [GCall.l2Q coin]⟩
  | Except.ok book =>
    ⟨[J.jobj [("success", J.jbool true), ("coin", J.jstr coin),
              ("bids", J.jarr ((obBids book depth).map levelJ)),
              ("asks", J.jarr ((obAsks book depth).map levelJ)),
              ("bestBid", J.jnum (obBestBid book depth)),
              ("bestAsk", J.jnum (obBestAsk book depth)),
              ("spread", J.jnum (pyRoundTo (obSpread book depth) 4)),
              ("spreadPct", J.jnum (pyRoundTo (obSpread book depth) 4)),
              ("imbalance", J.jnum (pyRoundTo (obImbalance book depth) 2)),
              ("bidWall", wallJ (pyMaxBySize (obBids book depth))),
              ("askWall", wallJ (pyMaxBySize (obAsks book depth))),
              ("totalBidSize", J.jnum (pyRoundTo (obTotalBid book depth) 4)),
              ("totalAskSize", J.jnum (pyRoundTo (obTotalAsk book depth) 4))]],
     none, [GCall.l2Q coin]⟩

/-- Model of `parse_agent_args` as far as `sys.argv` is concerned: the two
credential flags are removed wherever they appear (their values feed the
credential state collapsed into `Env.credError`). -/
def stripAgentArgs (argv : List String) : List String :=
  argv.filter (fun a => !(pyStarts "--agent-key=" a || pyStarts "--master=" a))

/-- Embedding of `main` (hl_bridge.py lines 478-541): strip credential flags,
validate the positional argument count of the chosen command, and dispatch.
`argvRaw` includes the program name at position 0, like `sys.argv`. -/
def mainRun (env : Env) (argvRaw : List String) : Run :=
  let argv := stripAgentArgs argvRaw
  if argv.length < 2 then ⟨[successFalse "No command provided"], none, []⟩
  else
    let cmd := pyLower (argv.getD 1 "")
    if cmd = "balance" then cmd_balance env
    else if cmd = "positions" then cmd_positions env
    else if cmd = "orderbook" then
      if argv.length < 3 then
        ⟨[successFalse "Usage: orderbook <coin> [depth]"], none, []⟩
      else
        match (if argv.length > 3 then pyParseInt (argv.getD 3 "") else some 10) with
        | none => ⟨[], some "invalid literal for int() with base 10", []⟩
        | some d => cmd_orderbook env (pyUpper (argv.getD 2 "")) d.toNat
    else if cmd = "order" then
      if argv.length < 5 then
        ⟨[successFalse "Usage: order <coin> <buy|sell> <size> [limit] [price]"], none, []⟩
      else
        let price :=
          if argv.length > 5 then
            if argv.getD 5 "" = "limit" then
              (if argv.length > 6 then some (argv.getD 6 "") else none)
            else some (argv.getD 5 "")
          else none
        cmd_order env (pyUpper (argv.getD 2 "")) (argv.getD 3 "") (argv.getD 4 "") price
    else if cmd = "cancel" then
      if argv.length < 4 then
        ⟨[successFalse "Usage: cancel <coin> <oid>"], none, []⟩
      else cmd_cancel env (pyUpper (argv.getD 2 "")) (argv.getD 3 "")
    else if cmd = "trigger" then
      if argv.length < 7 then
        ⟨[successFalse "Usage: trigger <coin> <buy|sell> <size> <sl|tp> <trigger_price>"], none, []⟩
      else
        cmd_trigger env (pyUpper (argv.getD 2 "")) (argv.getD 3 "") (argv.getD 4 "")
          (argv.getD 5 "") (argv.getD 6 "")
    else if cmd = "close_all" then cmd_close_all env
    else if cmd = "open_orders" then cmd_open_orders env
    else if cmd = "cancel_all" then
      cmd_cancel_all_orders env
        (if argv.length > 2 then some (pyUpper (argv.getD 2 "")) else none)
    else ⟨[successFalse ("Unknown command: " ++ cmd)], none, []⟩

/-- The five envelope shapes named by the specification's response-normalizer
contract. This definition follows the spec's words (not the source), for
comparison against what the code prints: gateway error, immediate fill,
resting order, opaque status, opaque result. -/
def isFiveShape : J → Bool
  | J.jobj [("success", J.jbool false), ("error", _)] => true
  | J.jobj [("success", J.jbool true), ("filled", J.jbool true),
            ("oid", _), ("avgPx", _), ("totalSz", _)] => true
  | J.jobj [("success", J.jbool true), ("filled", J.jbool false), ("oid", _)] => true
  | J.jobj [("success", J.jbool true), ("status", _)] => true
  | J.jobj [("success", J.jbool true), ("result", _)] => true
  | _ => false

/-- The envelope shape the trigger path actually prints for a resting trigger
order: no `filled` field, but `triggerType` and `triggerPrice` fields. -/
def isTriggerRestShape : J → Bool
  | J.jobj [("success", J.jbool true), ("oid", _),
            ("triggerType", _), ("triggerPrice", _)] => true
  | _ => false

/-- Run characterization of the market branch of `cmd_order`: with credentials
available, a parseable size, a successful mids fetch, and a price token that
is absent or the literal `market`, the command submits an IOC order at the
synthetic market price and prints its normalized envelope. -/
theorem cmd_order_market_run (env : Env) (coin side sizeTok : String)
    (ptok : Option String) (s : ℚ) (mids : List (String × ℚ))
    (hcred : env.credError = none) (hsz : parseDec sizeTok = some s)
    (hmids : env.mids = Except.ok mids)
    (hp : ptok = none ∨ ptok = some "market") :
    cmd_order env coin side sizeTok ptok =
      placeAndReport env
        ⟨coin, decide (pyLower side = "buy"),
         roundSize s (szDecimalsOrder coin),
         marketPx (decide (pyLower side = "buy")) (lookupMid mids coin),
         OrderType.limit Tif.Ioc, false⟩ [GCall.allMidsQ] := by
  rcases hp with rfl | rfl
  · simp only [cmd_order, hcred, hsz, hmids]
  · simp only [cmd_order, hcred, hsz, hmids]
    rfl

/-- Run characterization of the `limit_open` branch of `cmd_order`. -/
theorem cmd_order_limitOpen_run (env : Env) (coin side sizeTok : String)
    (s : ℚ) (mids : List (String × ℚ))
    (hcred : env.credError = none) (hsz : parseDec sizeTok = some s)
    (hmids : env.mids = Except.ok mids) :
    cmd_order env coin side sizeTok (some "limit_open") =
      placeAndReport env
        ⟨coin, decide (pyLower side = "buy"),
         roundSize s (szDecimalsOrder coin),
         limitOpenPx (decide (pyLower side = "buy")) (lookupMid mids coin),
         OrderType.limit Tif.Gtc, false⟩ [GCall.allMidsQ] := by
  simp only [cmd_order, hcred, hsz, hmids]; rfl

/-- Run characterization of the explicit-price branch of `cmd_order`: the
submitted price is the magnitude-tier rounding of the parsed token, with
good-till-cancel time-in-force. -/
theorem cmd_order_explicit_run (env : Env) (coin side sizeTok ptok : String)
    (s p : ℚ)
    (hcred : env.credError = none) (hsz : parseDec sizeTok = some s)
    (hm : ptok ≠ "market") (hlo : ptok ≠ "limit_open")
    (hp : parseDec ptok = some p) :
    cmd_order env coin side sizeTok (some ptok) =
      placeAndReport env
        ⟨coin, decide (pyLower side = "buy"),
         roundSize s (szDecimalsOrder coin),
         roundPriceOrder p, OrderType.limit Tif.Gtc, false⟩ [] := by
  simp only [cmd_order, hcred, hsz, if_neg hm, if_neg hlo, hp]

/-- Run characterization of `cmd_trigger`: with credentials available and
parseable numeric tokens, it submits one reduce-only trigger order whose
`order_type` carries the rounded trigger price, `isMarket = true`, and the
`tpsl` tag derived from the trigger-kind token. -/
theorem cmd_trigger_run (env : Env) (coin side sizeTok ty px : String)
    (s t : ℚ)
    (hcred : env.credError = none) (hsz : parseDec sizeTok = some s)
    (hpx : parseDec px = some t) :
    cmd_trigger env coin side sizeTok ty px =
      triggerReport env
        ⟨coin, decide (pyLower side = "buy"),
         roundSize s (szDecimalsTrigger coin), roundPriceTrigger t,
         OrderType.trig (roundPriceTrigger t) true
           (if pyLower ty = "sl" then "sl" else "tp"), true⟩
        ty (roundPriceTrigger t) := by
  simp only [cmd_trigger, hcred, hsz, hpx]

/-- Evaluation rule for `parseDec` given the char-level parts. -/
theorem parseDec_eval (s : String) (neg : Bool) (n f k : ℕ)
    (hs : parseDecParts s = some (neg, n, f, k)) :
    parseDec s = some ((if neg then -1 else 1) * ((n : ℚ) + (f : ℚ) / 10 ^ k)) := by
  simp [parseDec, hs]

/-- C6: the price rounding rule is magnitude-tiered — below 1 it rounds to 5
decimals, below 10 to 4, below 100 to 3, below 1000 to 2, otherwise to 1 — it
is independent of the symbol (the same function of the price alone on both
code sites), and it is applied to the explicit limit price submitted by the
order command and to the trigger price submitted by the trigger command. -/
theorem claim_C6 :
    (∀ p : ℚ, p < 1 → roundPriceOrder p = pyRoundTo p 5) ∧
    (∀ p : ℚ, 1 ≤ p → p < 10 → roundPriceOrder p = pyRoundTo p 4) ∧
    (∀ p : ℚ, 10 ≤ p → p < 100 → roundPriceOrder p = pyRoundTo p 3) ∧
    (∀ p : ℚ, 100 ≤ p → p < 1000 → roundPriceOrder p = pyRoundTo p 2) ∧
    (∀ p : ℚ, 1000 ≤ p → roundPriceOrder p = pyRoundTo p 1) ∧
    (∀ p : ℚ, roundPriceOrder p = roundPriceTrigger p) ∧
    (∀ (env : Env) (coin side sizeTok ptok : String) (s p : ℚ),
      env.credError = none → parseDec sizeTok = some s →
      ptok ≠ "market" → ptok ≠ "limit_open" → parseDec ptok = some p →
      cmd_order env coin side sizeTok (some ptok) =
        placeAndReport env
          ⟨coin, decide (pyLower side = "buy"),
           roundSize s (szDecimalsOrder coin),
           roundPriceOrder p, OrderType.limit Tif.Gtc, false⟩ []) ∧
    (∀ (env : Env) (coin side sizeTok ty px : String) (s t : ℚ),
      env.credError = none → parseDec sizeTok = some s → parseDec px = some t →
      cmd_trigger env coin side sizeTok ty px =
        triggerReport env
          ⟨coin, decide (pyLower side = "buy"),
           roundSize s (szDecimalsTrigger coin), roundPriceTrigger t,
           OrderType.trig (roundPriceTrigger t) true
             (if pyLower ty = "sl" then "sl" else "tp"), true⟩
          ty (roundPriceTrigger t)) := by
  refine ⟨?_, ?_, ?_, ?_, ?_, fun p => rfl, cmd_order_explicit_run, cmd_trigger_run⟩
  · intro p h1
    unfold roundPriceOrder
    rw [if_pos h1]
  · intro p h1 h2
    unfold roundPriceOrder
    rw [if_neg (by linarith), if_pos h2]
  · intro p h1 h2
    unfold roundPriceOrder
    rw [if_neg (by linarith), if_neg (by linarith), if_pos h2]
  · intro p h1 h2
    unfold roundPriceOrder
    rw [if_neg (by linarith), if_neg (by linarith), if_neg (by linarith), if_pos h2]
  · intro p h1
    unfold roundPriceOrder
    rw [if_neg (by linarith), if_neg (by linarith), if_neg (by linarith),
        if_neg (by linarith)]

/-- Witness for C6: the spec's tier examples 0.5, 5, 50, 500, 5000. -/
theorem claim_C6_witness :
    ((1/2 : ℚ) < 1 ∧ roundPriceOrder (1/2) = pyRoundTo (1/2) 5) ∧
    ((1 : ℚ) ≤ 5 ∧ (5 : ℚ) < 10 ∧ roundPriceOrder 5 = pyRoundTo 5 4) ∧
    ((10 : ℚ) ≤ 50 ∧ (50 : ℚ) < 100 ∧ roundPriceOrder 50 = pyRoundTo 50 3) ∧
    ((100 : ℚ) ≤ 500 ∧ (500 : ℚ) < 1000 ∧ roundPriceOrder 500 = pyRoundTo 500 2) ∧
    ((1000 : ℚ) ≤ 5000 ∧ roundPriceOrder 5000 = pyRoundTo 5000 1) :=
  ⟨⟨by norm_num, claim_C6.1 _ (by norm_num)⟩,
   ⟨by norm_num, by norm_num, claim_C6.2.1 _ (by norm_num) (by norm_num)⟩,
   ⟨by norm_num, by norm_num, claim_C6.2.2.1 _ (by norm_num) (by norm_num)⟩,
   ⟨by norm_num, by norm_num, claim_C6.2.2.2.1 _ (by norm_num) (by norm_num)⟩,
   ⟨by norm_num, claim_C6.2.2.2.2.1 _ (by norm_num)⟩⟩

/-- C7: symbols absent from the static size table default to 2 decimals on
both code sites (which hold identical tables), size rounding at 0 decimals
produces an exact integer, and size rounding at d > 0 decimals produces a
value with exactly d decimal places (a multiple of 10^(-d)). -/
theorem claim_C7 :
    (∀ coin : String, SZ_DECIMALS_order.lookup coin = none → szDecimalsOrder coin = 2) ∧
    (∀ coin : String, SZ_DECIMALS_trigger.lookup coin = none → szDecimalsTrigger coin = 2) ∧
    (∀ coin : String, szDecimalsOrder coin = szDecimalsTrigger coin) ∧
    (∀ x : ℚ, ∃ z : ℤ, roundSize x 0 = (z : ℚ)) ∧
    (∀ (x : ℚ) (d : ℕ), 0 < d → ∃ z : ℤ, roundSize x d * 10 ^ d = (z : ℚ)) := by
  refine ⟨?_, ?_, fun coin => rfl, ?_, ?_⟩
  · intro coin h
    simp [szDecimalsOrder, h]
  · intro coin h
    simp [szDecimalsTrigger, h]
  · intro x
    exact ⟨pyTrunc (pyRoundTo x 0), by simp [roundSize]⟩
  · intro x d hd
    refine ⟨pyRound (x * 10 ^ d), ?_⟩
    have hne : d ≠ 0 := Nat.pos_iff_ne_zero.mp hd
    simp only [roundSize, pyRoundTo, if_neg hne]
    rw [div_mul_cancel₀]
    exact pow_ne_zero _ (by norm_num)

/-- Witness for C7: an unknown symbol defaults to 2 on both paths, and size
rounding of 3.7 at 3 decimals lands on a multiple of 10^(-3). -/
theorem claim_C7_witness :
    (SZ_DECIMALS_order.lookup "FARTCOIN" = none ∧ szDecimalsOrder "FARTCOIN" = 2) ∧
    (SZ_DECIMALS_trigger.lookup "FARTCOIN" = none ∧ szDecimalsTrigger "FARTCOIN" = 2) ∧
    ((0 : ℕ) < 3 ∧ ∃ z : ℤ, roundSize (37/10) 3 * 10 ^ 3 = (z : ℚ)) :=
  ⟨⟨by decide, claim_C7.1 _ (by decide)⟩,
   ⟨by decide, claim_C7.2.1 _ (by decide)⟩,
   ⟨by decide, claim_C7.2.2.2.2 (37/10) 3 (by decide)⟩⟩

/-- Both branches of the protected trigger submission record exactly one
gateway order call, the submitted request itself. -/
theorem triggerReport_calls (env : Env) (req : OrderReq) (ty : String) (px : ℚ) :
    (triggerReport env req ty px).calls = [GCall.orderQ req] := by
  unfold triggerReport
  cases env.orderCall req <;> rfl

/-- C2: the trigger direction resolver maps buy+sl to above, sell+sl to
below, sell+tp to above, buy+tp to below (sides as the booleans produced by
comparing the lowercased side token with buy), and every trigger submission
carries `reduceOnly = true` and a trigger order type with `isMarket = true`
at the rounded trigger price. -/
theorem claim_C2 :
    (isTriggerAbove (decide (pyLower "buy" = "buy")) "sl" = true) ∧
    (isTriggerAbove (decide (pyLower "sell" = "buy")) "sl" = false) ∧
    (isTriggerAbove (decide (pyLower "sell" = "buy")) "tp" = true) ∧
    (isTriggerAbove (decide (pyLower "buy" = "buy")) "tp" = false) ∧
    (∀ (env : Env) (coin side sizeTok ty px : String) (s t : ℚ),
      env.credError = none → parseDec sizeTok = some s → parseDec px = some t →
      ∃ req : OrderReq,
        (cmd_trigger env coin side sizeTok ty px).calls = [GCall.orderQ req] ∧
        req.reduceOnly = true ∧
        req.isBuy = decide (pyLower side = "buy") ∧
        req.orderType = OrderType.trig (roundPriceTrigger t) true
          (if pyLower ty = "sl" then "sl" else "tp")) := by
  refine ⟨by decide, by decide, by decide, by decide, ?_⟩
  intro env coin side sizeTok ty px s t hcred hsz hpx
  refine ⟨⟨coin, decide (pyLower side = "buy"),
           roundSize s (szDecimalsTrigger coin), roundPriceTrigger t,
           OrderType.trig (roundPriceTrigger t) true
             (if pyLower ty = "sl" then "sl" else "tp"), true⟩, ?_, rfl, rfl, rfl⟩
  rw [cmd_trigger_run env coin side sizeTok ty px s t hcred hsz hpx]
  exact triggerReport_calls ..

/-- A deterministic benign environment used by several witnesses. -/
def envOk : Env where
  credError := none
  userState := Except.ok ⟨"0", "0", []⟩
  mids := Except.ok [("BTC", 50000)]
  orderCall := fun _ => Except.error "gateway unreachable"
  cancelCall := fun _ _ => Except.error "gateway unreachable"
  openOrdersCall := Except.ok []
  l2Call := fun _ => Except.error "gateway unreachable"

/-- Witness for C2: a concrete sell take-profit trigger on BTC. -/
theorem claim_C2_witness :
    envOk.credError = none ∧ parseDec "1" = some (1 : ℚ) ∧
    parseDec "50000" = some (50000 : ℚ) ∧
    (∃ req : OrderReq,
      (cmd_trigger envOk "BTC" "sell" "1" "tp" "50000").calls = [GCall.orderQ req] ∧
      req.reduceOnly = true ∧
      req.isBuy = decide (pyLower "sell" = "buy") ∧
      req.orderType = OrderType.trig (roundPriceTrigger 50000) true
        (if pyLower "tp" = "sl" then "sl" else "tp")) := by
  have h1 : parseDec "1" = some (1 : ℚ) := by
    rw [parseDec_eval _ false 1 0 0 (by decide)]
    norm_num
  have h2 : parseDec "50000" = some (50000 : ℚ) := by
    rw [parseDec_eval _ false 50000 0 0 (by decide)]
    norm_num
  exact ⟨rfl, h1, h2,
    claim_C2.2.2.2.2 envOk "BTC" "sell" "1" "tp" "50000" 1 50000 rfl h1 h2⟩

/-- Evaluation fact: the literal token 1 parses to one. -/
theorem parse_one : parseDec "1" = some (1 : ℚ) := by
  rw [parseDec_eval _ false 1 0 0 (by decide)]
  norm_num

/-- An environment whose mids dictionary is empty, so every symbol is absent
and quoted at mid 0. -/
def envZero : Env := { envOk with mids := Except.ok [] }

/-- Counterexample to C5 as stated: for the absent symbol FOO the mid is 0,
which the claim includes (mid m= 0), yet the pre-rounding market buy price
0 * 1.001 = 0 is not strictly above the mid, and the submitted price is 0. -/
theorem claim_C5_counterexample :
    cmd_order envZero "FOO" "buy" "1" none =
      placeAndReport envZero
        ⟨"FOO", decide (pyLower "buy" = "buy"), roundSize 1 (szDecimalsOrder "FOO"),
         marketPx (decide (pyLower "buy" = "buy")) (lookupMid [] "FOO"),
         OrderType.limit Tif.Ioc, false⟩ [GCall.allMidsQ] ∧
    lookupMid [] "FOO" = 0 ∧
    marketPx (decide (pyLower "buy" = "buy")) (lookupMid [] "FOO") = 0 ∧
    ¬ (lookupMid [] "FOO" * (1001/1000) > lookupMid [] "FOO") := by
  refine ⟨cmd_order_market_run envZero "FOO" "buy" "1" none 1 [] rfl parse_one rfl
    (Or.inl rfl), rfl, ?_, ?_⟩
  · show marketPx true 0 = 0
    norm_num [marketPx, pyRound]
  · show ¬ ((0 : ℚ) * (1001/1000) > 0)
    norm_num

/-- C5 as amended: the market branch submits at `round(mid * 1.001)` (buy) or
`round(mid * 0.999)` (sell) with immediate-or-cancel, the `limit_open` branch
at `round(mid * 0.95)` / `round(mid * 1.05)` with good-till-cancel, absent
symbols are quoted at mid 0, and the 0.1% pre-rounding offset is strictly
above/below the mid exactly when the mid is positive. -/
theorem claim_C5_amended :
    (∀ (env : Env) (coin side sizeTok : String) (ptok : Option String) (s : ℚ)
       (mids : List (String × ℚ)),
      env.credError = none → parseDec sizeTok = some s →
      env.mids = Except.ok mids → (ptok = none ∨ ptok = some "market") →
      cmd_order env coin side sizeTok ptok =
        placeAndReport env
          ⟨coin, decide (pyLower side = "buy"), roundSize s (szDecimalsOrder coin),
           marketPx (decide (pyLower side = "buy")) (lookupMid mids coin),
           OrderType.limit Tif.Ioc, false⟩ [GCall.allMidsQ]) ∧
    (∀ (env : Env) (coin side sizeTok : String) (s : ℚ)
       (mids : List (String × ℚ)),
      env.credError = none → parseDec sizeTok = some s →
      env.mids = Except.ok mids →
      cmd_order env coin side sizeTok (some "limit_open") =
        placeAndReport env
          ⟨coin, decide (pyLower side = "buy"), roundSize s (szDecimalsOrder coin),
           limitOpenPx (decide (pyLower side = "buy")) (lookupMid mids coin),
           OrderType.limit Tif.Gtc, false⟩ [GCall.allMidsQ]) ∧
    (∀ m : ℚ, marketPx true m = (pyRound (m * (1001/1000)) : ℚ) ∧
              marketPx false m = (pyRound (m * (999/1000)) : ℚ)) ∧
    (∀ m : ℚ, limitOpenPx true m = (pyRound (m * (95/100)) : ℚ) ∧
              limitOpenPx false m = (pyRound (m * (105/100)) : ℚ)) ∧
    (∀ m : ℚ, 0 < m → m < m * (1001/1000) ∧ m * (999/1000) < m) ∧
    (∀ (mids : List (String × ℚ)) (coin : String),
      mids.lookup coin = none → lookupMid mids coin = 0) := by
  refine ⟨cmd_order_market_run, cmd_order_limitOpen_run,
    fun m => ⟨rfl, rfl⟩, fun m => ⟨rfl, rfl⟩, ?_, ?_⟩
  · intro m hm
    constructor <;> nlinarith
  · intro mids coin h
    simp [lookupMid, h]

/-- Witness for amended C5: a market buy on BTC quoted at 50000. -/
theorem claim_C5_witness :
    envOk.credError = none ∧ parseDec "1" = some (1 : ℚ) ∧
    envOk.mids = Except.ok [("BTC", (50000 : ℚ))] ∧
    cmd_order envOk "BTC" "buy" "1" none =
      placeAndReport envOk
        ⟨"BTC", decide (pyLower "buy" = "buy"), roundSize 1 (szDecimalsOrder "BTC"),
         marketPx (decide (pyLower "buy" = "buy")) (lookupMid [("BTC", 50000)] "BTC"),
         OrderType.limit Tif.Ioc, false⟩ [GCall.allMidsQ] ∧
    (0 : ℚ) < 50000 ∧
    (50000 : ℚ) < 50000 * (1001/1000) ∧ (50000 : ℚ) * (999/1000) < 50000 :=
  ⟨rfl, parse_one, rfl,
   claim_C5_amended.1 envOk "BTC" "buy" "1" none 1 _ rfl parse_one rfl (Or.inl rfl),
   by norm_num,
   (claim_C5_amended.2.2.2.2.1 50000 (by norm_num)).1,
   (claim_C5_amended.2.2.2.2.1 50000 (by norm_num)).2⟩

/-- The spec's worked orderbook example: bids (100,5),(99,3); asks
(101,2),(102,4). -/
def bookC9 : L2Book := ⟨[⟨100, 5, 1⟩, ⟨99, 3, 1⟩], [⟨101, 2, 1⟩, ⟨102, 4, 1⟩]⟩

/-- The empty book. -/
def bookEmpty : L2Book := ⟨[], []⟩

/-- An environment whose L2 snapshot is the spec's worked example. -/
def envBookC9 : Env := { envOk with l2Call := fun _ => Except.ok bookC9 }

/-- C9: the orderbook command reports spread = (bestAsk-bestBid)/bestBid*100
and imbalance = (totBid-totAsk)/(totBid+totAsk)*100, each 0 when its
denominator is 0; the printed envelope carries these (to 4 and 2 decimal
places as the code rounds them); and on the spec's example book the values
are bestBid 100, bestAsk 101, spread 1.0, imbalance 14.29. -/
theorem claim_C9 :
    (∀ (book : L2Book) (depth : ℕ), obBestBid book depth = 0 → obSpread book depth = 0) ∧
    (∀ (book : L2Book) (depth : ℕ),
      obTotalBid book depth + obTotalAsk book depth = 0 → obImbalance book depth = 0) ∧
    (∀ (book : L2Book) (depth : ℕ), 0 < obBestBid book depth →
      obSpread book depth =
        (obBestAsk book depth - obBestBid book depth) / obBestBid book depth * 100) ∧
    (∀ (book : L2Book) (depth : ℕ), 0 < obTotalBid book depth + obTotalAsk book depth →
      obImbalance book depth =
        (obTotalBid book depth - obTotalAsk book depth)
          / (obTotalBid book depth + obTotalAsk book depth) * 100) ∧
    (∀ (env : Env) (coin : String) (depth : ℕ) (book : L2Book),
      env.l2Call coin = Except.ok book →
      (cmd_orderbook env coin depth).out =
        [J.jobj [("success", J.jbool true), ("coin", J.jstr coin),
                 ("bids", J.jarr ((obBids book depth).map levelJ)),
                 ("asks", J.jarr ((obAsks book depth).map levelJ)),
                 ("bestBid", J.jnum (obBestBid book depth)),
                 ("bestAsk", J.jnum (obBestAsk book depth)),
                 ("spread", J.jnum (pyRoundTo (obSpread book depth) 4)),
                 ("spreadPct", J.jnum (pyRoundTo (obSpread book depth) 4)),
                 ("imbalance", J.jnum (pyRoundTo (obImbalance book depth) 2)),
                 ("bidWall", wallJ (pyMaxBySize (obBids book depth))),
                 ("askWall", wallJ (pyMaxBySize (obAsks book depth))),
                 ("totalBidSize", J.jnum (pyRoundTo (obTotalBid book depth) 4)),
                 ("totalAskSize", J.jnum (pyRoundTo (obTotalAsk book depth) 4))]]) ∧
    (obBestBid bookC9 10 = 100 ∧ obBestAsk bookC9 10 = 101 ∧
     pyRoundTo (obSpread bookC9 10) 4 = 1 ∧
     pyRoundTo (obImbalance bookC9 10) 2 = 1429/100) := by
  refine ⟨?_, ?_, ?_, ?_, ?_, rfl, rfl, ?_, ?_⟩
  · intro book depth h
    unfold obSpread
    rw [h]
    norm_num
  · intro book depth h
    unfold obImbalance
    rw [h]
    norm_num
  · intro book depth h
    unfold obSpread
    rw [if_pos h]
  · intro book depth h
    unfold obImbalance
    rw [if_pos h]
  · intro env coin depth book hl2
    unfold cmd_orderbook
    rw [hl2]
  · have hsp : obSpread bookC9 10 = 1 := by
      have hbb : obBestBid bookC9 10 = 100 := rfl
      have hba : obBestAsk bookC9 10 = 101 := rfl
      unfold obSpread
      rw [hbb, hba]
      norm_num
    rw [hsp]
    norm_num [pyRoundTo, pyRound]
  · have him : obImbalance bookC9 10 = 100/7 := by
      have hb : obTotalBid bookC9 10 = 8 := by
        norm_num [obTotalBid, obBids, bookC9]
      have ha : obTotalAsk bookC9 10 = 6 := by
        norm_num [obTotalAsk, obAsks, bookC9]
      unfold obImbalance
      rw [hb, ha]
      norm_num
    rw [him]
    norm_num [pyRoundTo, pyRound]

/-- Witness for C9: the example book through the full command, plus the
zero-denominator cases on the empty book. -/
theorem claim_C9_witness :
    envBookC9.l2Call "BTC" = Except.ok bookC9 ∧
    (cmd_orderbook envBookC9 "BTC" 10).out =
      [J.jobj [("success", J.jbool true), ("coin", J.jstr "BTC"),
               ("bids", J.jarr ((obBids bookC9 10).map levelJ)),
               ("asks", J.jarr ((obAsks bookC9 10).map levelJ)),
               ("bestBid", J.jnum (obBestBid bookC9 10)),
               ("bestAsk", J.jnum (obBestAsk bookC9 10)),
               ("spread", J.jnum (pyRoundTo (obSpread bookC9 10) 4)),
               ("spreadPct", J.jnum (pyRoundTo (obSpread bookC9 10) 4)),
               ("imbalance", J.jnum (pyRoundTo (obImbalance bookC9 10) 2)),
               ("bidWall", wallJ (pyMaxBySize (obBids bookC9 10))),
               ("askWall", wallJ (pyMaxBySize (obAsks bookC9 10))),
               ("totalBidSize", J.jnum (pyRoundTo (obTotalBid bookC9 10) 4)),
               ("totalAskSize", J.jnum (pyRoundTo (obTotalAsk bookC9 10) 4))]] ∧
    (obBestBid bookEmpty 10 = 0 ∧ obSpread bookEmpty 10 = 0) ∧
    (obTotalBid bookEmpty 10 + obTotalAsk bookEmpty 10 = 0 ∧
     obImbalance bookEmpty 10 = 0) ∧
    (0 : ℚ) < obBestBid bookC9 10 ∧
    obSpread bookC9 10 =
      (obBestAsk bookC9 10 - obBestBid bookC9 10) / obBestBid bookC9 10 * 100 :=
  ⟨rfl,
   claim_C9.2.2.2.2.1 envBookC9 "BTC" 10 bookC9 rfl,
   ⟨rfl, claim_C9.1 bookEmpty 10 rfl⟩,
   ⟨by norm_num [obTotalBid, obTotalAsk, obBids, obAsks, bookEmpty],
    claim_C9.2.1 bookEmpty 10
      (by norm_num [obTotalBid, obTotalAsk, obBids, obAsks, bookEmpty])⟩,
   by norm_num [obBestBid, obBids, bookC9],
   claim_C9.2.2.1 bookC9 10 (by norm_num [obBestBid, obBids, bookC9])⟩

/-- C8: an order invocation with fewer than three positional arguments after
the command token (fewer than symbol, side, and size) prints the usage error
immediately and performs no gateway call of any kind. -/
theorem claim_C8 :
    ∀ (env : Env) (argv : List String) (prog : String) (rest : List String),
      stripAgentArgs argv = prog :: "order" :: rest → rest.length < 3 →
      mainRun env argv =
        ⟨[successFalse "Usage: order <coin> <buy|sell> <size> [limit] [price]"],
         none, []⟩ := by
  intro env argv prog rest hstrip hlen
  rcases rest with _ | ⟨a, _ | ⟨b, _ | ⟨c, tail⟩⟩⟩
  · simp only [mainRun]
    rw [hstrip]
    rfl
  · simp only [mainRun]
    rw [hstrip]
    rfl
  · simp only [mainRun]
    rw [hstrip]
    rfl
  · exact absurd hlen (by simp)

/-- Witness for C8: `order BTC` alone (three argv tokens including the program
name) produces the usage envelope with an empty gateway trace. -/
theorem claim_C8_witness :
    stripAgentArgs ["hl_bridge.py", "order", "BTC"] =
      "hl_bridge.py" :: "order" :: ["BTC"] ∧
    (["BTC"] : List String).length < 3 ∧
    mainRun envOk ["hl_bridge.py", "order", "BTC"] =
      ⟨[successFalse "Usage: order <coin> <buy|sell> <size> [limit] [price]"],
       none, []⟩ :=
  ⟨rfl, by decide, claim_C8 envOk ["hl_bridge.py", "order", "BTC"]
      "hl_bridge.py" ["BTC"] rfl (by decide)⟩

/-- C10: when the literal token `limit` is the final argument of an order
command, the dispatcher passes `price = None`, and a `None` price is handled
by the market branch — an immediate-or-cancel order at the 0.1%-offset
synthetic market price — rather than rejected or placed as a resting limit. -/
theorem claim_C10 :
    (∀ (env : Env) (argv : List String) (prog sym side sz : String),
      stripAgentArgs argv = [prog, "order", sym, side, sz, "limit"] →
      mainRun env argv = cmd_order env (pyUpper sym) side sz none) ∧
    (∀ (env : Env) (coin side sizeTok : String) (s : ℚ) (mids : List (String × ℚ)),
      env.credError = none → parseDec sizeTok = some s →
      env.mids = Except.ok mids →
      cmd_order env coin side sizeTok none =
        placeAndReport env
          ⟨coin, decide (pyLower side = "buy"), roundSize s (szDecimalsOrder coin),
           marketPx (decide (pyLower side = "buy")) (lookupMid mids coin),
           OrderType.limit Tif.Ioc, false⟩ [GCall.allMidsQ]) := by
  constructor
  · intro env argv prog sym side sz hstrip
    simp only [mainRun]
    rw [hstrip]
    rfl
  · intro env coin side sizeTok s mids h1 h2 h3
    exact cmd_order_market_run env coin side sizeTok none s mids h1 h2 h3 (Or.inl rfl)

/-- Witness for C10: `order btc buy 1 limit` dispatches with no price and the
market branch submits an IOC order at the synthetic market price. -/
theorem claim_C10_witness :
    stripAgentArgs ["hl_bridge.py", "order", "btc", "buy", "1", "limit"] =
      ["hl_bridge.py", "order", "btc", "buy", "1", "limit"] ∧
    mainRun envOk ["hl_bridge.py", "order", "btc", "buy", "1", "limit"] =
      cmd_order envOk (pyUpper "btc") "buy" "1" none ∧
    envOk.credError = none ∧ parseDec "1" = some (1 : ℚ) ∧
    envOk.mids = Except.ok [("BTC", (50000 : ℚ))] ∧
    cmd_order envOk "BTC" "buy" "1" none =
      placeAndReport envOk
        ⟨"BTC", decide (pyLower "buy" = "buy"), roundSize 1 (szDecimalsOrder "BTC"),
         marketPx (decide (pyLower "buy" = "buy")) (lookupMid [("BTC", 50000)] "BTC"),
         OrderType.limit Tif.Ioc, false⟩ [GCall.allMidsQ] :=
  ⟨rfl,
   claim_C10.1 envOk ["hl_bridge.py", "order", "btc", "buy", "1", "limit"]
     "hl_bridge.py" "btc" "buy" "1" rfl,
   rfl, parse_one, rfl,
   claim_C10.2 envOk "BTC" "buy" "1" 1 [("BTC", 50000)] rfl parse_one rfl⟩

/-- The gateway-call trace the close-all loop produces: one mids fetch and one
order submission per processed position. -/
def closeTrace (mids : List (String × ℚ)) : List Position → List GCall
  | [] => []
  | p :: rest => GCall.allMidsQ :: GCall.orderQ (closeReq mids p) :: closeTrace mids rest

/-- When the mids fetch succeeds, the close-all loop never crashes, collects
exactly one entry per nonzero-size position (in order), and submits exactly
one order per such position. -/
theorem closeAllLoop_ok (env : Env) (mids : List (String × ℚ))
    (hmids : env.mids = Except.ok mids) :
    ∀ ps : List Position,
      closeAllLoop env ps =
        ((ps.filter (fun p => decide (p.szi ≠ 0))).map (closedEntry env mids), none,
         closeTrace mids (ps.filter (fun p => decide (p.szi ≠ 0)))) := by
  intro ps
  induction ps with
  | nil => rfl
  | cons p rest ih =>
    by_cases hz : p.szi = 0
    · simp only [closeAllLoop, if_pos hz, ih, List.filter_cons]
      simp [hz]
    · simp only [closeAllLoop, if_neg hz, hmids, ih, List.filter_cons]
      simp [hz, closeTrace]

/-- C3: with a readable account state and mids, close_all prints one envelope
whose `closed` list has exactly one entry per nonzero-size position (in
order) and records one gateway order per such position; each submitted order
buys iff the signed size is negative, for `abs(size)`, at the market-branch
price against that symbol's mid, as immediate-or-cancel and with reduce-only
false; a per-position entry is the status on success and the fault message on
an exception, so one failure does not remove the other positions' results. -/
theorem claim_C3 :
    ∀ (env : Env) (st : UserState) (mids : List (String × ℚ)),
      env.credError = none → env.userState = Except.ok st →
      env.mids = Except.ok mids →
      (cmd_close_all env =
        ⟨[J.jobj [("success", J.jbool true),
                  ("closed", J.jarr ((st.assetPositions.filter
                    (fun p => decide (p.szi ≠ 0))).map (closedEntry env mids)))]],
         none,
         GCall.userStateQ :: closeTrace mids (st.assetPositions.filter
           (fun p => decide (p.szi ≠ 0)))⟩) ∧
      (∀ p : Position,
        (closeReq mids p).isBuy = decide (p.szi < 0) ∧
        (closeReq mids p).sz = |p.szi| ∧
        (closeReq mids p).limitPx =
          marketPx (decide (p.szi < 0)) (lookupMid mids p.coin) ∧
        (closeReq mids p).orderType = OrderType.limit Tif.Ioc ∧
        (closeReq mids p).reduceOnly = false) ∧
      (∀ p : Position,
        (∀ r, env.orderCall (closeReq mids p) = Except.ok r →
          closedEntry env mids p =
            J.jobj [("coin", J.jstr p.coin), ("size", J.jnum |p.szi|),
                    ("result", J.jstr r.status)]) ∧
        (∀ e, env.orderCall (closeReq mids p) = Except.error e →
          closedEntry env mids p =
            J.jobj [("coin", J.jstr p.coin), ("size", J.jnum |p.szi|),
                    ("error", J.jstr e)])) := by
  intro env st mids hcred hstate hmids
  refine ⟨?_, fun p => ⟨rfl, rfl, rfl, rfl, rfl⟩, fun p => ⟨?_, ?_⟩⟩
  · simp only [cmd_close_all, hcred, hstate, closeAllLoop_ok env mids hmids]
  · intro r hr
    unfold closedEntry
    rw [hr]
  · intro e he
    unfold closedEntry
    rw [he]

/-- The spec's close-all example account: a short of 0.5 BTC and a long of
2.0 ETH. -/
def stC3 : UserState :=
  ⟨"1000", "1000",
   [⟨"BTC", -(1/2), 60000, 0, J.jnum 1⟩, ⟨"ETH", 2, 1800, 0, J.jnum 1⟩]⟩

/-- Mids for the close-all example. -/
def midsC3 : List (String × ℚ) := [("BTC", 50000), ("ETH", 2000)]

/-- Environment for the close-all example in which the BTC close succeeds and
the ETH close raises. -/
def envC3 : Env :=
  { envOk with
    userState := Except.ok stC3
    mids := Except.ok midsC3
    orderCall := fun req =>
      if req.coin = "BTC" then Except.ok ⟨"ok", [], J.jnull, "ok"⟩
      else Except.error "boom" }

/-- Witness for C3: on the example account both per-position results appear in
`closed` — the BTC success and the ETH fault — even though the ETH call
raised. -/
theorem claim_C3_witness :
    envC3.credError = none ∧ envC3.userState = Except.ok stC3 ∧
    envC3.mids = Except.ok midsC3 ∧
    cmd_close_all envC3 =
      ⟨[J.jobj [("success", J.jbool true),
                ("closed", J.jarr ((stC3.assetPositions.filter
                  (fun p => decide (p.szi ≠ 0))).map (closedEntry envC3 midsC3)))]],
       none,
       GCall.userStateQ :: closeTrace midsC3 (stC3.assetPositions.filter
         (fun p => decide (p.szi ≠ 0)))⟩ ∧
    (stC3.assetPositions.filter
        (fun p => decide (p.szi ≠ 0))).map (closedEntry envC3 midsC3) =
      [J.jobj [("coin", J.jstr "BTC"), ("size", J.jnum (1/2)),
               ("result", J.jstr "ok")],
       J.jobj [("coin", J.jstr "ETH"), ("size", J.jnum 2),
               ("error", J.jstr "boom")]] := by
  refine ⟨rfl, rfl, rfl, (claim_C3 envC3 stC3 midsC3 rfl rfl rfl).1, ?_⟩
  norm_num [stC3, closedEntry, closeReq, envC3, midsC3, envOk,
    show ¬ (("ETH" : String) = "BTC") by decide]

/-- The error envelope is one of the five claimed shapes. -/
theorem isFiveShape_successFalse (e : String) : isFiveShape (successFalse e) = true := rfl

/-- Every envelope the order-path normalizer produces is one of the five
claimed shapes. -/
theorem isFiveShape_orderEnvelope (r : OrderResult) :
    isFiveShape (orderEnvelope r) = true := by
  unfold orderEnvelope
  split
  · split
    · rfl
    · split <;> rfl
  · rfl

/-- Every envelope the trigger-path normalizer produces is one of the five
claimed shapes or the trigger-resting shape (the latter replaces the claimed
resting shape on this path). -/
theorem triggerEnvelope_shape (r : OrderResult) (ty : String) (px : ℚ) :
    isFiveShape (triggerEnvelope r ty px) = true ∨
    isTriggerRestShape (triggerEnvelope r ty px) = true := by
  unfold triggerEnvelope
  split
  · split
    · left; rfl
    · split
      · left; rfl
      · right; rfl
      · left; rfl
      · left; rfl
  · left; rfl

/-- Everything the protected order submission prints is one of the five
claimed shapes. -/
theorem placeAndReport_out (env : Env) (req : OrderReq) (pre : List GCall) :
    ∀ j ∈ (placeAndReport env req pre).out, isFiveShape j = true := by
  intro j hj
  cases h : env.orderCall req with
  | error e =>
    simp only [placeAndReport, h] at hj
    simp at hj
    subst hj
    exact isFiveShape_successFalse e
  | ok r =>
    simp only [placeAndReport, h] at hj
    simp at hj
    subst hj
    exact isFiveShape_orderEnvelope r

/-- Everything the order command prints, on any path, is one of the five
claimed shapes (crash paths print nothing). -/
theorem cmd_order_out_fiveShape (env : Env) (coin side sizeTok : String)
    (ptok : Option String) :
    ∀ j ∈ (cmd_order env coin side sizeTok ptok).out, isFiveShape j = true := by
  intro j hj
  cases hcred : env.credError with
  | some e =>
    simp only [cmd_order, hcred] at hj
    simp at hj
    subst hj
    exact isFiveShape_successFalse e
  | none =>
    cases hs : parseDec sizeTok with
    | none =>
      simp only [cmd_order, hcred, hs] at hj
      simp at hj
    | some s0 =>
      rcases ptok with _ | p
      · cases hm : env.mids with
        | error e =>
          simp only [cmd_order, hcred, hs, hm] at hj
          simp at hj
        | ok mids =>
          simp only [cmd_order, hcred, hs, hm] at hj
          exact placeAndReport_out env _ _ j hj
      · by_cases hmk : p = "market"
        · cases hm : env.mids with
          | error e =>
            simp only [cmd_order, hcred, hs, if_pos hmk, hm] at hj
            simp at hj
          | ok mids =>
            simp only [cmd_order, hcred, hs, if_pos hmk, hm] at hj
            exact placeAndReport_out env _ _ j hj
        · by_cases hlo : p = "limit_open"
          · cases hm : env.mids with
            | error e =>
              simp only [cmd_order, hcred, hs, if_neg hmk, if_pos hlo, hm] at hj
              simp at hj
            | ok mids =>
              simp only [cmd_order, hcred, hs, if_neg hmk, if_pos hlo, hm] at hj
              exact placeAndReport_out env _ _ j hj
          · cases hp : parseDec p with
            | none =>
              simp only [cmd_order, hcred, hs, if_neg hmk, if_neg hlo, hp] at hj
              simp at hj
            | some pf =>
              simp only [cmd_order, hcred, hs, if_neg hmk, if_neg hlo, hp] at hj
              exact placeAndReport_out env _ _ j hj

/-- Everything the protected trigger submission prints is one of the five
claimed shapes or the trigger-resting shape. -/
theorem triggerReport_out (env : Env) (req : OrderReq) (ty : String) (px : ℚ) :
    ∀ j ∈ (triggerReport env req ty px).out,
      isFiveShape j = true ∨ isTriggerRestShape j = true := by
  intro j hj
  cases h : env.orderCall req with
  | error e =>
    simp only [triggerReport, h] at hj
    simp at hj
    subst hj
    exact Or.inl (isFiveShape_successFalse e)
  | ok r =>
    simp only [triggerReport, h] at hj
    simp at hj
    subst hj
    exact triggerEnvelope_shape r ty px

/-- Everything the trigger command prints, on any path, is one of the five
claimed shapes or the trigger-resting shape. -/
theorem cmd_trigger_out_shape (env : Env) (coin side sizeTok ty px : String) :
    ∀ j ∈ (cmd_trigger env coin side sizeTok ty px).out,
      isFiveShape j = true ∨ isTriggerRestShape j = true := by
  intro j hj
  cases hcred : env.credError with
  | some e =>
    simp only [cmd_trigger, hcred] at hj
    simp at hj
    subst hj
    exact Or.inl (isFiveShape_successFalse e)
  | none =>
    cases hs : parseDec sizeTok with
    | none =>
      simp only [cmd_trigger, hcred, hs] at hj
      simp at hj
    | some s0 =>
      cases ht : parseDec px with
      | none =>
        simp only [cmd_trigger, hcred, hs, ht] at hj
        simp at hj
      | some t0 =>
        simp only [cmd_trigger, hcred, hs, ht] at hj
        exact triggerReport_out env _ ty _ j hj

/-- A gateway result whose only status entry is a resting order with oid 7. -/
def resRest : OrderResult := ⟨"ok", [StatusEntry.resting (J.jnum 7)], J.jnull, "rest"⟩

/-- An environment whose order submissions always come back resting. -/
def envRest : Env := { envOk with orderCall := fun _ => Except.ok resRest }

/-- Evaluation fact: the literal token 50000 parses to 50000. -/
theorem parse_50000 : parseDec "50000" = some (50000 : ℚ) := by
  rw [parseDec_eval _ false 50000 0 0 (by decide)]
  norm_num

/-- Counterexample to C4 as stated: on the trigger path a resting order is
printed as `{success, oid, triggerType, triggerPrice}` — with no `filled`
field — which is none of the five claimed shapes. -/
theorem claim_C4_counterexample :
    (cmd_trigger envRest "BTC" "sell" "1" "sl" "50000").out =
      [J.jobj [("success", J.jbool true), ("oid", J.jnum 7),
               ("triggerType", J.jstr "sl"), ("triggerPrice", J.jnum 50000)]] ∧
    isFiveShape (J.jobj [("success", J.jbool true), ("oid", J.jnum 7),
               ("triggerType", J.jstr "sl"), ("triggerPrice", J.jnum 50000)]) = false := by
  constructor
  · rw [cmd_trigger_run envRest "BTC" "sell" "1" "sl" "50000" 1 50000 rfl
      parse_one parse_50000]
    have hrp : roundPriceTrigger 50000 = 50000 := by
      norm_num [roundPriceTrigger, pyRoundTo, pyRound]
    rw [hrp]
    rfl
  · rfl

/-- C4 as amended: the order path prints exactly one of the five claimed
shapes in every case; the trigger path prints one of the five shapes except
that a resting order is rendered as `{success:true, oid, triggerType,
triggerPrice}` (and a filled status falls into the opaque `status` shape,
there being no `filled` branch on that path). -/
theorem claim_C4_amended :
    (∀ r : OrderResult, isFiveShape (orderEnvelope r) = true) ∧
    (∀ (env : Env) (coin side sizeTok : String) (ptok : Option String),
      ∀ j ∈ (cmd_order env coin side sizeTok ptok).out, isFiveShape j = true) ∧
    (∀ (r : OrderResult) (ty : String) (px : ℚ),
      isFiveShape (triggerEnvelope r ty px) = true ∨
      isTriggerRestShape (triggerEnvelope r ty px) = true) ∧
    (∀ (env : Env) (coin side sizeTok ty px : String),
      ∀ j ∈ (cmd_trigger env coin side sizeTok ty px).out,
        isFiveShape j = true ∨ isTriggerRestShape j = true) ∧
    (∀ (r : OrderResult) (ty : String) (px : ℚ) (oid : J),
      r.status = "ok" → r.statuses = [StatusEntry.resting oid] →
      triggerEnvelope r ty px =
        J.jobj [("success", J.jbool true), ("oid", oid),
                ("triggerType", J.jstr ty), ("triggerPrice", J.jnum px)]) := by
  refine ⟨isFiveShape_orderEnvelope, cmd_order_out_fiveShape, triggerEnvelope_shape,
    cmd_trigger_out_shape, ?_⟩
  intro r ty px oid h1 h2
  simp [triggerEnvelope, h1, h2]

/-- An environment with missing signing material. -/
def envCred : Env := { envOk with credError := some "HL_PRIVATE_KEY not set" }

/-- Witness for amended C4: a failed order submission prints the error shape;
a credential error on the trigger path prints a five-shape envelope; the
resting trigger reply renders as the trigger-resting shape. -/
theorem claim_C4_witness :
    successFalse "gateway unreachable" ∈
      (cmd_order envOk "BTC" "buy" "1" none).out ∧
    isFiveShape (successFalse "gateway unreachable") = true ∧
    successFalse "HL_PRIVATE_KEY not set" ∈
      (cmd_trigger envCred "BTC" "sell" "1" "sl" "50000").out ∧
    (isFiveShape (successFalse "HL_PRIVATE_KEY not set") = true ∨
     isTriggerRestShape (successFalse "HL_PRIVATE_KEY not set") = true) ∧
    resRest.status = "ok" ∧
    resRest.statuses = [StatusEntry.resting (J.jnum 7)] ∧
    triggerEnvelope resRest "sl" 50000 =
      J.jobj [("success", J.jbool true), ("oid", J.jnum 7),
              ("triggerType", J.jstr "sl"), ("triggerPrice", J.jnum 50000)] := by
  have hordOut : (cmd_order envOk "BTC" "buy" "1" none).out =
      [successFalse "gateway unreachable"] := rfl
  have htrgOut : (cmd_trigger envCred "BTC" "sell" "1" "sl" "50000").out =
      [successFalse "HL_PRIVATE_KEY not set"] := rfl
  have h1 : successFalse "gateway unreachable" ∈
      (cmd_order envOk "BTC" "buy" "1" none).out := by
    rw [hordOut]; exact List.mem_singleton.mpr rfl
  have h2 : successFalse "HL_PRIVATE_KEY not set" ∈
      (cmd_trigger envCred "BTC" "sell" "1" "sl" "50000").out := by
    rw [htrgOut]; exact List.mem_singleton.mpr rfl
  exact ⟨h1,
    claim_C4_amended.2.1 envOk "BTC" "buy" "1" none _ h1,
    h2,
    claim_C4_amended.2.2.2.1 envCred "BTC" "sell" "1" "sl" "50000" _ h2,
    rfl, rfl,
    claim_C4_amended.2.2.2.2 resRest "sl" 50000 (J.jnum 7) rfl rfl⟩

/-- An environment whose account-state fetch raises. -/
def envBoom : Env := { envOk with userState := Except.error "boom" }

/-- An environment whose mids fetch raises. -/
def envMidsBoom : Env := { envOk with mids := Except.error "mids down" }

/-- A one-position account used to drive the close-all loop into its mids
fetch. -/
def stOnePos : UserState := ⟨"0", "0", [⟨"BTC", 1, 0, 0, J.jnull⟩]⟩

/-- An environment with a readable account but a failing mids fetch. -/
def envCloseBoom : Env :=
  { envOk with userState := Except.ok stOnePos, mids := Except.error "mids down" }

/-- Counterexample to C1 as stated: an exception in the account-state fetch
crashes balance and positions with nothing printed (they have no handler),
and an exception in the mid-price fetch crashes a market order and close_all
(the fetch happens before the try block). -/
theorem claim_C1_counterexample :
    (cmd_balance envBoom).crash = some "boom" ∧ (cmd_balance envBoom).out = [] ∧
    (cmd_positions envBoom).crash = some "boom" ∧ (cmd_positions envBoom).out = [] ∧
    (cmd_order envMidsBoom "BTC" "buy" "1" none).crash = some "mids down" ∧
    (cmd_order envMidsBoom "BTC" "buy" "1" none).out = [] ∧
    (cmd_close_all envCloseBoom).crash = some "mids down" ∧
    (cmd_close_all envCloseBoom).out = [] := by
  refine ⟨rfl, rfl, rfl, rfl, rfl, rfl, ?_, ?_⟩ <;>
    norm_num [cmd_close_all, envCloseBoom, envOk, stOnePos, closeAllLoop]

/-- Both branches of the protected order submission print exactly one
envelope and never crash. -/
theorem placeAndReport_stats (env : Env) (req : OrderReq) (pre : List GCall) :
    (placeAndReport env req pre).crash = none ∧
    (placeAndReport env req pre).out.length = 1 := by
  cases h : env.orderCall req <;> simp [placeAndReport, h]

/-- Both branches of the protected trigger submission print exactly one
envelope and never crash. -/
theorem triggerReport_stats (env : Env) (req : OrderReq) (ty : String) (px : ℚ) :
    (triggerReport env req ty px).crash = none ∧
    (triggerReport env req ty px).out.length = 1 := by
  cases h : env.orderCall req <;> simp [triggerReport, h]

/-- C1 as amended: orderbook, open_orders, cancel_all and cancel always print
exactly one JSON result whatever the gateway does (their gateway interaction
is inside the try block); order and trigger print exactly one result whenever
the steps before their try block succeed — argument parsing, and the mids
fetch on the market and limit_open branches; close_all prints exactly one
result whenever its account-state and mids fetches succeed, isolating only
submission faults per position; but balance and positions have no handler, so
an account-state exception crashes them with nothing printed. -/
theorem claim_C1_amended :
    (∀ (env : Env) (coin : String) (depth : ℕ),
      (cmd_orderbook env coin depth).crash = none ∧
      (cmd_orderbook env coin depth).out.length = 1) ∧
    (∀ env : Env,
      (cmd_open_orders env).crash = none ∧ (cmd_open_orders env).out.length = 1) ∧
    (∀ (env : Env) (coinF : Option String),
      (cmd_cancel_all_orders env coinF).crash = none ∧
      (cmd_cancel_all_orders env coinF).out.length = 1) ∧
    (∀ (env : Env) (coin oidTok : String),
      (cmd_cancel env coin oidTok).crash = none ∧
      (cmd_cancel env coin oidTok).out.length = 1) ∧
    (∀ (env : Env) (coin side sizeTok : String) (ptok : Option String) (s : ℚ)
       (mids : List (String × ℚ)),
      parseDec sizeTok = some s → env.mids = Except.ok mids →
      (ptok = none ∨ ptok = some "market") →
      (cmd_order env coin side sizeTok ptok).crash = none ∧
      (cmd_order env coin side sizeTok ptok).out.length = 1) ∧
    (∀ (env : Env) (coin side sizeTok : String) (s : ℚ)
       (mids : List (String × ℚ)),
      parseDec sizeTok = some s → env.mids = Except.ok mids →
      (cmd_order env coin side sizeTok (some "limit_open")).crash = none ∧
      (cmd_order env coin side sizeTok (some "limit_open")).out.length = 1) ∧
    (∀ (env : Env) (coin side sizeTok p : String) (s pf : ℚ),
      parseDec sizeTok = some s → p ≠ "market" → p ≠ "limit_open" →
      parseDec p = some pf →
      (cmd_order env coin side sizeTok (some p)).crash = none ∧
      (cmd_order env coin side sizeTok (some p)).out.length = 1) ∧
    (∀ (env : Env) (coin side sizeTok ty px : String) (s t : ℚ),
      parseDec sizeTok = some s → parseDec px = some t →
      (cmd_trigger env coin side sizeTok ty px).crash = none ∧
      (cmd_trigger env coin side sizeTok ty px).out.length = 1) ∧
    (∀ (env : Env) (e : String), env.userState = Except.error e →
      (cmd_balance env).crash = some e ∧ (cmd_balance env).out = [] ∧
      (cmd_positions env).crash = some e ∧ (cmd_positions env).out = []) ∧
    (∀ (env : Env) (st : UserState), env.userState = Except.ok st →
      (cmd_balance env).crash = none ∧ (cmd_balance env).out.length = 1 ∧
      (cmd_positions env).crash = none ∧ (cmd_positions env).out.length = 1) ∧
    (∀ (env : Env) (st : UserState) (mids : List (String × ℚ)),
      env.userState = Except.ok st → env.mids = Except.ok mids →
      (cmd_close_all env).crash = none ∧ (cmd_close_all env).out.length = 1) := by
  refine ⟨?_, ?_, ?_, ?_, ?_, ?_, ?_, ?_, ?_, ?_, ?_⟩
  · intro env coin depth
    cases h : env.l2Call coin <;> simp [cmd_orderbook, h]
  · intro env
    cases h : env.openOrdersCall <;> simp [cmd_open_orders, h]
  · intro env coinF
    cases hc : env.credError with
    | some e => simp [cmd_cancel_all_orders, hc]
    | none =>
      cases ho : env.openOrdersCall with
      | error e => simp [cmd_cancel_all_orders, hc, ho]
      | ok orders =>
        rcases hloop : cancelAllLoop env coinF orders with ⟨cs, es, tr⟩
        simp [cmd_cancel_all_orders, hc, ho, hloop]
  · intro env coin oidTok
    cases hc : env.credError with
    | some e => simp [cmd_cancel, hc]
    | none =>
      cases hp : pyParseInt oidTok with
      | none => simp [cmd_cancel, hc, hp]
      | some oid =>
        cases hcc : env.cancelCall coin oid with
        | error e => simp [cmd_cancel, hc, hp, hcc]
        | ok r =>
          by_cases hst : r.status = "ok" <;> simp [cmd_cancel, hc, hp, hcc, hst]
  · intro env coin side sizeTok ptok s mids hsz hmids hp
    cases hc : env.credError with
    | some e => simp [cmd_order, hc]
    | none =>
      rw [cmd_order_market_run env coin side sizeTok ptok s mids hc hsz hmids hp]
      exact placeAndReport_stats ..
  · intro env coin side sizeTok s mids hsz hmids
    cases hc : env.credError with
    | some e => simp [cmd_order, hc]
    | none =>
      rw [cmd_order_limitOpen_run env coin side sizeTok s mids hc hsz hmids]
      exact placeAndReport_stats ..
  · intro env coin side sizeTok p s pf hsz hm hlo hp
    cases hc : env.credError with
    | some e => simp [cmd_order, hc]
    | none =>
      rw [cmd_order_explicit_run env coin side sizeTok p s pf hc hsz hm hlo hp]
      exact placeAndReport_stats ..
  · intro env coin side sizeTok ty px s t hsz hpx
    cases hc : env.credError with
    | some e => simp [cmd_trigger, hc]
    | none =>
      rw [cmd_trigger_run env coin side sizeTok ty px s t hc hsz hpx]
      exact triggerReport_stats ..
  · intro env e h
    simp [cmd_balance, cmd_positions, h]
  · intro env st h
    simp [cmd_balance, cmd_positions, h]
  · intro env st mids hstate hmids
    cases hc : env.credError with
    | some e => simp [cmd_close_all, hc]
    | none =>
      simp [cmd_close_all, hc, hstate, closeAllLoop_ok env mids hmids]

/-- Witness for amended C1: concrete runs of every guarded pipeline, the
balance/positions crash, and a close_all with one success and one fault. -/
theorem claim_C1_witness :
    (parseDec "1" = some (1 : ℚ) ∧ envOk.mids = Except.ok [("BTC", (50000 : ℚ))] ∧
     ((cmd_order envOk "BTC" "buy" "1" none).crash = none ∧
      (cmd_order envOk "BTC" "buy" "1" none).out.length = 1)) ∧
    ((cmd_order envOk "BTC" "sell" "1" (some "limit_open")).crash = none ∧
     (cmd_order envOk "BTC" "sell" "1" (some "limit_open")).out.length = 1) ∧
    ((cmd_order envOk "BTC" "buy" "1" (some "50000")).crash = none ∧
     (cmd_order envOk "BTC" "buy" "1" (some "50000")).out.length = 1) ∧
    ((cmd_trigger envOk "BTC" "sell" "1" "tp" "50000").crash = none ∧
     (cmd_trigger envOk "BTC" "sell" "1" "tp" "50000").out.length = 1) ∧
    (envBoom.userState = Except.error "boom" ∧
     ((cmd_balance envBoom).crash = some "boom" ∧ (cmd_balance envBoom).out = [] ∧
      (cmd_positions envBoom).crash = some "boom" ∧
      (cmd_positions envBoom).out = [])) ∧
    (envOk.userState = Except.ok ⟨"0", "0", []⟩ ∧
     ((cmd_balance envOk).crash = none ∧ (cmd_balance envOk).out.length = 1 ∧
      (cmd_positions envOk).crash = none ∧ (cmd_positions envOk).out.length = 1)) ∧
    ((cmd_close_all envC3).crash = none ∧ (cmd_close_all envC3).out.length = 1) :=
  ⟨⟨parse_one, rfl,
    claim_C1_amended.2.2.2.2.1 envOk "BTC" "buy" "1" none 1 [("BTC", 50000)]
      parse_one rfl (Or.inl rfl)⟩,
   claim_C1_amended.2.2.2.2.2.1 envOk "BTC" "sell" "1" 1 [("BTC", 50000)]
     parse_one rfl,
   claim_C1_amended.2.2.2.2.2.2.1 envOk "BTC" "buy" "1" "50000" 1 50000
     parse_one (by decide) (by decide) parse_50000,
   claim_C1_amended.2.2.2.2.2.2.2.1 envOk "BTC" "sell" "1" "tp" "50000" 1 50000
     parse_one parse_50000,
   ⟨rfl, claim_C1_amended.2.2.2.2.2.2.2.2.1 envBoom "boom" rfl⟩,
   ⟨rfl, claim_C1_amended.2.2.2.2.2.2.2.2.2.1 envOk ⟨"0", "0", []⟩ rfl⟩,
   claim_C1_amended.2.2.2.2.2.2.2.2.2.2 envC3 stC3 midsC3 rfl rfl⟩
